import Mathlib

/-!
Shallow embedding of the timer/statistics core of the cyber-timer repository
(src/src/context/TimerContext.tsx): the `timerReducer` state machine, the
`updateStatsEntry` aggregation helper, the `TimerProvider` completion effect,
and the localStorage load/merge initializer.  JavaScript numbers that matter
here are integers, embedded as `Int`; the wall clock is embedded as an
explicit millisecond timestamp passed into the actions that read it
(`new Date()` / `Date.now()` in the source).
-/

namespace CyberTimer

/-! ### Calendar arithmetic

The source derives date strings with `new Date(ms).toISOString().split('T')[0]`
and parses them back with `new Date("YYYY-MM-DD").getTime()` (ISO date-only
strings are interpreted as UTC midnight in JavaScript).  We embed both with
the standard civil-calendar conversion (Gregorian, proleptic), using floor
division on `Int` to match JavaScript's behaviour on all timestamps. -/

/-- Days since 1970-01-01 of a civil date (Gregorian calendar). -/
def daysFromCivil (y m d : Int) : Int :=
  let y' := if m ≤ 2 then y - 1 else y
  let era := Int.fdiv y' 400
  let yoe := y' - era * 400
  let mp := if m > 2 then m - 3 else m + 9
  let doy := Int.fdiv (153 * mp + 2) 5 + d - 1
  let doe := yoe * 365 + Int.fdiv yoe 4 - Int.fdiv yoe 100 + doy
  era * 146097 + doe - 719468

/-- Civil date (year, month, day) of a count of days since 1970-01-01. -/
def civilFromDays (z : Int) : Int × Int × Int :=
  let z' := z + 719468
  let era := Int.fdiv z' 146097
  let doe := z' - era * 146097
  let yoe := Int.fdiv (doe - Int.fdiv doe 1460 + Int.fdiv doe 36524 - Int.fdiv doe 146096) 365
  let y := yoe + era * 400
  let doy := doe - (365 * yoe + Int.fdiv yoe 4 - Int.fdiv yoe 100)
  let mp := Int.fdiv (5 * doy + 2) 153
  let d := doy - Int.fdiv (153 * mp + 2) 5 + 1
  let m := if mp < 10 then mp + 3 else mp - 9
  (if m ≤ 2 then y + 1 else y, m, d)

def pad2 (n : Nat) : String :=
  if n < 10 then "0" ++ toString n else toString n

def pad4 (n : Nat) : String :=
  if n < 10 then "000" ++ toString n
  else if n < 100 then "00" ++ toString n
  else if n < 1000 then "0" ++ toString n
  else toString n

/-- Embedding of `new Date(ms).toISOString().split('T')[0]`: the UTC calendar
date of a millisecond timestamp, formatted `YYYY-MM-DD`. -/
def isoDate (ms : Int) : String :=
  let days := Int.fdiv ms 86400000
  let c := civilFromDays days
  pad4 c.1.toNat ++ "-" ++ pad2 c.2.1.toNat ++ "-" ++ pad2 c.2.2.toNat

/-- Structural split of a character list at the separator `-`. -/
def splitDash : List Char → List (List Char)
  | [] => [[]]
  | c :: cs =>
    if c = '-' then [] :: splitDash cs
    else
      match splitDash cs with
      | [] => [[c]]
      | r :: rs => (c :: r) :: rs

def digitsVal : List Char → Nat → Option Nat
  | [], acc => some acc
  | c :: cs, acc =>
    if '0' ≤ c ∧ c ≤ '9' then digitsVal cs (acc * 10 + (c.toNat - 48)) else none

def parseDigits : List Char → Option Nat
  | [] => none
  | l => digitsVal l 0

/-- Embedding of `new Date(s).getTime()` on a date-only string: `none` stands
for JavaScript `NaN` (unparseable input).  Strings produced by `isoDate` always
parse; malformed strings are rejected like JavaScript rejects invalid dates. -/
def parseIsoMs (s : String) : Option Int :=
  match splitDash s.data with
  | [ys, ms, ds] =>
    match parseDigits ys, parseDigits ms, parseDigits ds with
    | some y, some mo, some d =>
      if 1 ≤ mo ∧ mo ≤ 12 ∧ 1 ≤ d ∧ d ≤ 31 then
        some (daysFromCivil (Int.ofNat y) (Int.ofNat mo) (Int.ofNat d) * 86400000)
      else none
    | _, _, _ => none
  | _ => none

/-! ### Data model (TimerContext.tsx types) -/

structure TimerPreset where
  id : String
  duration : Int
deriving DecidableEq, Repr

structure TimerPreferences where
  soundEnabled : Bool
  youtubeUrl : String
  faction : String
  character : String
  analyticsView : String
  theme : String
  quote : String
  randomQuotes : Bool
deriving DecidableEq, Repr

structure StatEntry where
  date : String
  sessions : Int
  focusTime : Int
deriving DecidableEq, Repr

structure TimerStats where
  sessionsCompleted : Int
  currentStreak : Int
  longestStreak : Int
  lastSessionDate : Option String
  totalFocusTime : Int
  weeklyStats : List StatEntry
  monthlyStats : List StatEntry
  yearlyStats : List StatEntry
deriving DecidableEq, Repr

structure TimerAchievement where
  id : String
  name : String
  description : String
  unlocked : Bool
  date : Option String
  icon : String
deriving DecidableEq, Repr

structure TimerQuote where
  id : String
  text : String
  character : String
  faction : String
  unlocked : Bool
deriving DecidableEq, Repr

/-- The `presets` record; the source field named `break` is a Lean keyword and
is embedded as `breakTime`. -/
structure Presets where
  focus : Int
  shortFocus : Int
  breakTime : Int
  shortBreak : Int
deriving DecidableEq, Repr

/-- The `notifications` record; the source field named `show` is a Lean
keyword and is embedded as `showFlag`. -/
structure NotificationSettings where
  showFlag : Bool
  autoDismiss : Bool
  duration : Int
deriving DecidableEq, Repr

structure TimerState where
  isRunning : Bool
  isComplete : Bool
  timeRemaining : Int
  presets : Presets
  activePreset : TimerPreset
  preferences : TimerPreferences
  stats : TimerStats
  achievements : List TimerAchievement
  quotes : List TimerQuote
  notifications : NotificationSettings
deriving DecidableEq, Repr

/-- The `keyof TimerState['presets']` type of the UPDATE_PRESET action. -/
inductive PresetKey
  | focus
  | shortFocus
  | breakKey
  | shortBreak
deriving DecidableEq, Repr

def presetKeyStr : PresetKey → String
  | .focus => "focus"
  | .shortFocus => "shortFocus"
  | .breakKey => "break"
  | .shortBreak => "shortBreak"

def setPreset (p : Presets) : PresetKey → Int → Presets
  | .focus, v => { p with focus := v }
  | .shortFocus, v => { p with shortFocus := v }
  | .breakKey, v => { p with breakTime := v }
  | .shortBreak, v => { p with shortBreak := v }

def getPreset (p : Presets) : PresetKey → Int
  | .focus => p.focus
  | .shortFocus => p.shortFocus
  | .breakKey => p.breakTime
  | .shortBreak => p.shortBreak

/-- One UPDATE_PREFERENCE payload per preference field (the source uses a
dynamic key with an `any` value; each field keeps its TypeScript type). -/
inductive PrefUpdate
  | soundEnabled (v : Bool)
  | youtubeUrl (v : String)
  | faction (v : String)
  | character (v : String)
  | analyticsView (v : String)
  | theme (v : String)
  | quote (v : String)
  | randomQuotes (v : Bool)
deriving DecidableEq, Repr

def applyPrefUpdate (p : TimerPreferences) : PrefUpdate → TimerPreferences
  | .soundEnabled v => { p with soundEnabled := v }
  | .youtubeUrl v => { p with youtubeUrl := v }
  | .faction v => { p with faction := v }
  | .character v => { p with character := v }
  | .analyticsView v => { p with analyticsView := v }
  | .theme v => { p with theme := v }
  | .quote v => { p with quote := v }
  | .randomQuotes v => { p with randomQuotes := v }

/-- The reducer's action type.  COMPLETE_TIMER_SESSION and UNLOCK_ACHIEVEMENT
read the wall clock in the source (`new Date()` / `Date.now()`); the embedding
passes that single clock reading as the explicit `nowMs` argument. -/
inductive TimerAction
  | startTimer
  | pauseTimer
  | resetTimer
  | tick
  | switchPreset (preset : TimerPreset)
  | updatePreset (name : PresetKey) (value : Int)
  | updatePreference (upd : PrefUpdate)
  | resetStats
  | completeTimerSession (nowMs : Int)
  | unlockQuote (quoteId : String)
  | unlockAchievement (achievementId : String) (nowMs : Int)
deriving DecidableEq, Repr

/-! ### Initial state (the `initialState` literal of TimerContext.tsx) -/

def initialAchievements : List TimerAchievement :=
  [ { id := "first-session", name := "First Focus Session",
      description := "Complete your first focus session",
      unlocked := false, date := none, icon := "🔥" },
    { id := "three-day-streak", name := "3 Day Streak",
      description := "Use the timer for 3 consecutive days",
      unlocked := false, date := none, icon := "📆" },
    { id := "seven-day-streak", name := "7 Day Streak",
      description := "Use the timer for 7 consecutive days",
      unlocked := false, date := none, icon := "🏆" },
    { id := "faction-loyalty", name := "Faction Loyalty",
      description := "Complete 10 sessions with the same faction",
      unlocked := false, date := none, icon := "🛡️" },
    { id := "transformer", name := "Transformer",
      description := "Switch between all factions",
      unlocked := false, date := none, icon := "🤖" } ]

def initialQuotes : List TimerQuote :=
  [ { id := "optimus_1", text := "Freedom is the right of all sentient beings.",
      character := "Optimus Prime", faction := "autobots", unlocked := true },
    { id := "megatron_1", text := "Peace through tyranny!",
      character := "Megatron", faction := "decepticons", unlocked := true },
    { id := "bumblebee_1", text := "I may be small, but I\x27m mighty!",
      character := "Bumblebee", faction := "autobots", unlocked := true },
    { id := "starscream_1", text := "Decepticons, transform and rise up!",
      character := "Starscream", faction := "decepticons", unlocked := true },
    { id := "optimalprimal_1", text := "Sometimes crazy works.",
      character := "Optimal Primal", faction := "maximals", unlocked := false },
    { id := "megatron2_1", text := "Yesss...",
      character := "Megatron", faction := "predacons", unlocked := false } ]

def initialState : TimerState :=
  { isRunning := false
    isComplete := false
    timeRemaining := 25 * 60
    presets := { focus := 25 * 60, shortFocus := 15 * 60,
                 breakTime := 5 * 60, shortBreak := 3 * 60 }
    activePreset := { id := "focus", duration := 25 * 60 }
    preferences := { analyticsView := "bar", soundEnabled := true,
                     faction := "autobots", character := "optimus",
                     theme := "autobots", youtubeUrl := "",
                     quote := "Freedom is the right of all sentient beings.",
                     randomQuotes := true }
    stats := { sessionsCompleted := 0, currentStreak := 0, longestStreak := 0,
               lastSessionDate := none, totalFocusTime := 0,
               weeklyStats := [], monthlyStats := [], yearlyStats := [] }
    achievements := initialAchievements
    quotes := initialQuotes
    notifications := { showFlag := true, autoDismiss := true, duration := 60000 } }

/-! ### The aggregation helper `updateStatsEntry` -/

/-- Embedding of `updateStatsEntry(entries, date, duration)`: find the first
entry whose `date` matches (`findIndex`), and either bump it in place (`map`
over indexed entries) or append a fresh entry. -/
def updateStatsEntry (entries : List StatEntry) (date : String) (duration : Int) :
    List StatEntry :=
  match List.findIdx? (fun entry => entry.date == date) entries with
  | some existingEntryIndex =>
    entries.mapIdx (fun index entry =>
      if index = existingEntryIndex then
        { entry with sessions := entry.sessions + 1, focusTime := entry.focusTime + duration }
      else entry)
  | none => entries ++ [{ date := date, sessions := 1, focusTime := duration }]

/-! ### The reducer `timerReducer` -/

def timerReducer (state : TimerState) (action : TimerAction) : TimerState :=
  match action with
  | .startTimer => { state with isRunning := true }
  | .pauseTimer => { state with isRunning := false }
  | .resetTimer =>
    { state with isRunning := false, isComplete := false,
                 timeRemaining := state.activePreset.duration }
  | .tick =>
    let newTimeRemaining := state.timeRemaining - 1
    { state with timeRemaining := newTimeRemaining,
                 isComplete := newTimeRemaining == 0,
                 isRunning := newTimeRemaining > 0 }
  | .switchPreset preset =>
    { state with activePreset := preset, timeRemaining := preset.duration,
                 isRunning := false, isComplete := false }
  | .updatePreset name value =>
    let presets' := setPreset state.presets name value
    if state.activePreset.id == presetKeyStr name then
      { state with presets := presets',
                   activePreset := { state.activePreset with duration := value },
                   timeRemaining := value }
    else
      { state with presets := presets' }
  | .updatePreference upd =>
    { state with preferences := applyPrefUpdate state.preferences upd }
  | .resetStats =>
    { state with
        stats := { sessionsCompleted := 0, currentStreak := 0, longestStreak := 0,
                   lastSessionDate := none, totalFocusTime := 0,
                   weeklyStats := [], monthlyStats := [], yearlyStats := [] }
        achievements := state.achievements.map (fun achievement =>
          { achievement with unlocked := false, date := none })
        quotes := state.quotes.enum.map (fun p =>
          { p.2 with unlocked := decide (p.1 < 4) }) }
  | .completeTimerSession nowMs =>
    let today := isoDate nowMs
    let isNewDay := state.stats.lastSessionDate != some today
    let isContinuingStreak :=
      match state.stats.lastSessionDate with
      | none => false
      | some ds =>
        if ds == "" then false
        else
          match parseIsoMs ds with
          | none => false
          | some ms => decide (ms ≥ nowMs - 24 * 60 * 60 * 1000)
    let newStreak :=
      if isNewDay then
        if isContinuingStreak then state.stats.currentStreak + 1 else 1
      else state.stats.currentStreak
    let newLongestStreak := max state.stats.longestStreak newStreak
    let ach1 :=
      if state.stats.sessionsCompleted == 0 then
        state.achievements.map (fun achievement =>
          if achievement.id == "first-session" then
            { achievement with unlocked := true, date := some today }
          else achievement)
      else state.achievements
    let ach2 :=
      if newStreak ≥ 3 then
        ach1.map (fun achievement =>
          if achievement.id == "three-day-streak" then
            { achievement with unlocked := true, date := some today }
          else achievement)
      else ach1
    let ach3 :=
      if newStreak ≥ 7 then
        ach2.map (fun achievement =>
          if achievement.id == "seven-day-streak" then
            { achievement with unlocked := true, date := some today }
          else achievement)
      else ach2
    { state with
        stats := { state.stats with
          sessionsCompleted := state.stats.sessionsCompleted + 1
          currentStreak := newStreak
          longestStreak := newLongestStreak
          lastSessionDate := some today
          totalFocusTime := state.stats.totalFocusTime + state.activePreset.duration
          weeklyStats := updateStatsEntry state.stats.weeklyStats today state.activePreset.duration
          monthlyStats := updateStatsEntry state.stats.monthlyStats today state.activePreset.duration
          yearlyStats := updateStatsEntry state.stats.yearlyStats today state.activePreset.duration }
        achievements := ach3 }
  | .unlockQuote quoteId =>
    { state with quotes := state.quotes.map (fun quote =>
        if quote.id == quoteId then { quote with unlocked := true } else quote) }
  | .unlockAchievement achievementId nowMs =>
    let achievementDate := isoDate nowMs
    { state with achievements := state.achievements.map (fun achievement =>
        if achievement.id == achievementId then
          { achievement with unlocked := true, date := some achievementDate }
        else achievement) }

/-- Left fold of the reducer over a list of actions. -/
def runReducer (s : TimerState) (actions : List TimerAction) : TimerState :=
  actions.foldl timerReducer s

/-- States reachable from `initialState` by any sequence of reducer actions. -/
inductive Reachable : TimerState → Prop
  | init : Reachable initialState
  | step {s : TimerState} (a : TimerAction) : Reachable s → Reachable (timerReducer s a)

/-! ### The completion effect of `TimerProvider`

The `useEffect` keyed on `state.isComplete` fires when that value changes;
when it has become `true` and the active preset id is `focus` or `shortFocus`
it dispatches COMPLETE_TIMER_SESSION.  (It also plays a sound and may unlock a
random quote; neither touches the timer or stats fields.)  `systemStep` runs
one dispatched action and then this effect. -/

def isCountable (p : TimerPreset) : Bool :=
  p.id == "focus" || p.id == "shortFocus"

def systemStep (s : TimerState) (a : TimerAction) (nowMs : Int) : TimerState :=
  let s' := timerReducer s a
  if s'.isComplete && !s.isComplete && isCountable s'.activePreset then
    timerReducer s' (.completeTimerSession nowMs)
  else s'

def runSystem (s : TimerState) (steps : List (TimerAction × Int)) : TimerState :=
  steps.foldl (fun st p => systemStep st p.1 p.2) s

/-! ### The localStorage load initializer of `TimerProvider`

The `useReducer` initializer reads `localStorage.getItem('timerState')`; a
missing item or a `JSON.parse` failure yields `initialState`.  A parsed
snapshot may carry any subset of the top-level keys (older schema), each
nested object again with any subset of its keys; `Option` fields model
absent/`undefined` JSON keys.  The merge in the source is
`{...initialState, ...parsedState, preferences: mergedPreferences}`: one
spread level for the top-level keys, a second spread only for `preferences`
(`{...initialState.preferences, ...parsedState.preferences}`); every other
present top-level object — in particular `stats` — is taken wholesale. -/

structure PartialPreferences where
  soundEnabled : Option Bool := none
  youtubeUrl : Option String := none
  faction : Option String := none
  character : Option String := none
  analyticsView : Option String := none
  theme : Option String := none
  quote : Option String := none
  randomQuotes : Option Bool := none
deriving DecidableEq, Repr

/-- A `stats` object as it may appear in a persisted snapshot: any subset of
the `TimerStats` keys.  This is also the type of the `stats` field after
loading, since absent keys of a present snapshot `stats` object stay
`undefined`. -/
structure PartialStats where
  sessionsCompleted : Option Int := none
  currentStreak : Option Int := none
  longestStreak : Option Int := none
  lastSessionDate : Option String := none
  totalFocusTime : Option Int := none
  weeklyStats : Option (List StatEntry) := none
  monthlyStats : Option (List StatEntry) := none
  yearlyStats : Option (List StatEntry) := none
deriving DecidableEq, Repr

structure PartialSnapshot where
  isRunning : Option Bool := none
  isComplete : Option Bool := none
  timeRemaining : Option Int := none
  presets : Option Presets := none
  activePreset : Option TimerPreset := none
  preferences : Option PartialPreferences := none
  stats : Option PartialStats := none
  achievements : Option (List TimerAchievement) := none
  quotes : Option (List TimerQuote) := none
  notifications : Option NotificationSettings := none
deriving DecidableEq, Repr

/-- The persisted item: absent, unparseable, or a parsed partial snapshot. -/
inductive SavedItem
  | missing
  | corrupt
  | parsed (p : PartialSnapshot)
deriving DecidableEq, Repr

/-- View of `TimerStats` with every key present (the default state as a
loaded-stats value). -/
def toPartialStats (s : TimerStats) : PartialStats :=
  { sessionsCompleted := some s.sessionsCompleted
    currentStreak := some s.currentStreak
    longestStreak := some s.longestStreak
    lastSessionDate := s.lastSessionDate
    totalFocusTime := some s.totalFocusTime
    weeklyStats := some s.weeklyStats
    monthlyStats := some s.monthlyStats
    yearlyStats := some s.yearlyStats }

/-- The state produced by the initializer: every top-level field is defined
(filled from `initialState` when absent), but the nested stats keys may still
be `undefined` when the snapshot carried a partial `stats` object. -/
structure LoadedState where
  isRunning : Bool
  isComplete : Bool
  timeRemaining : Int
  presets : Presets
  activePreset : TimerPreset
  preferences : TimerPreferences
  stats : PartialStats
  achievements : List TimerAchievement
  quotes : List TimerQuote
  notifications : NotificationSettings
deriving DecidableEq, Repr

def defaultLoaded : LoadedState :=
  { isRunning := initialState.isRunning
    isComplete := initialState.isComplete
    timeRemaining := initialState.timeRemaining
    presets := initialState.presets
    activePreset := initialState.activePreset
    preferences := initialState.preferences
    stats := toPartialStats initialState.stats
    achievements := initialState.achievements
    quotes := initialState.quotes
    notifications := initialState.notifications }

/-- Field-by-field spread `{...init, ...parsed}` for preferences. -/
def mergePreferences (init : TimerPreferences) (p : PartialPreferences) :
    TimerPreferences :=
  { soundEnabled := p.soundEnabled.getD init.soundEnabled
    youtubeUrl := p.youtubeUrl.getD init.youtubeUrl
    faction := p.faction.getD init.faction
    character := p.character.getD init.character
    analyticsView := p.analyticsView.getD init.analyticsView
    theme := p.theme.getD init.theme
    quote := p.quote.getD init.quote
    randomQuotes := p.randomQuotes.getD init.randomQuotes }

/-- Embedding of the `useReducer` lazy initializer of `TimerProvider`. -/
def loadFromStorage : SavedItem → LoadedState
  | .missing => defaultLoaded
  | .corrupt => defaultLoaded
  | .parsed p =>
    let prefs :=
      match p.preferences with
      | none => initialState.preferences
      | some pp => mergePreferences initialState.preferences pp
    { isRunning := p.isRunning.getD initialState.isRunning
      isComplete := p.isComplete.getD initialState.isComplete
      timeRemaining := p.timeRemaining.getD initialState.timeRemaining
      presets := p.presets.getD initialState.presets
      activePreset := p.activePreset.getD initialState.activePreset
      preferences := prefs
      stats := p.stats.getD (toPartialStats initialState.stats)
      achievements := p.achievements.getD initialState.achievements
      quotes := p.quotes.getD initialState.quotes
      notifications := p.notifications.getD initialState.notifications }

/-! ### Helper lemmas -/

theorem reachable_runReducer (l : List TimerAction) (s : TimerState)
    (h : Reachable s) : Reachable (runReducer s l) := by
  induction l generalizing s with
  | nil => exact h
  | cons a l ih => exact ih (timerReducer s a) (Reachable.step a h)

theorem mapIdx_id_of {α : Type} (l : List α) (f : Nat → α → α)
    (h : ∀ i a, f i a = a) : l.mapIdx f = l := by
  induction l generalizing f with
  | nil => simp
  | cons x xs ih =>
    rw [List.mapIdx_cons, h 0 x, ih (fun i => f (i + 1)) (fun i a => h (i + 1) a)]

theorem updateStatsEntry_head (e : StatEntry) (rest : List StatEntry)
    (d : String) (dur : Int) (h : e.date = d) :
    updateStatsEntry (e :: rest) d dur =
      { e with sessions := e.sessions + 1, focusTime := e.focusTime + dur } :: rest := by
  subst h
  simp only [updateStatsEntry, List.findIdx?_cons, beq_self_eq_true, if_true,
    List.mapIdx_cons]
  rw [mapIdx_id_of]
  intro i a
  simp

theorem updateStatsEntry_fresh (entries : List StatEntry) (d : String) (dur : Int)
    (h : ∀ e ∈ entries, e.date ≠ d) :
    updateStatsEntry entries d dur =
      entries ++ [{ date := d, sessions := 1, focusTime := dur }] := by
  have hnone : List.findIdx? (fun entry => entry.date == d) entries = none := by
    rw [List.findIdx?_eq_none_iff]
    intro e he
    simpa using h e he
  simp [updateStatsEntry, hnone]

/-! ### C1 -/

/-- C1 (amended): for every state reachable from the initial state by any
sequence of reducer actions, `timeRemaining ≤ activePreset.duration`.  (The
`isComplete`/`isRunning` clauses of the original claim fail; see the
counterexample.) -/
theorem C1_invariant_amended (s : TimerState) (h : Reachable s) :
    s.timeRemaining ≤ s.activePreset.duration := by
  induction h with
  | init => norm_num [initialState]
  | step a hs ih =>
    cases a with
    | startTimer => simpa [timerReducer] using ih
    | pauseTimer => simpa [timerReducer] using ih
    | resetTimer => simp [timerReducer]
    | tick => simp only [timerReducer]; omega
    | switchPreset p => simp [timerReducer]
    | updatePreset name v =>
      simp only [timerReducer]
      split
      · simp
      · simpa using ih
    | updatePreference u => simpa [timerReducer] using ih
    | resetStats => simpa [timerReducer] using ih
    | completeTimerSession t => simpa [timerReducer] using ih
    | unlockQuote q => simpa [timerReducer] using ih
    | unlockAchievement aid t => simpa [timerReducer] using ih

/-- Witness for C1 (amended) at the initial state. -/
theorem C1_invariant_amended_witness :
    initialState.timeRemaining ≤ initialState.activePreset.duration :=
  C1_invariant_amended initialState Reachable.init

/-- Counterexample to C1 as stated: after UPDATE_PRESET(focus, 1), START,
TICK the timer is complete, and a further START yields a reachable state with
`isRunning` and `isComplete` both true (START_TIMER does not clear
`isComplete`); moreover a further UPDATE_PRESET(focus, 10) from the complete
state yields a reachable state with `isComplete = true` and
`timeRemaining = 10 ≠ 0`. -/
theorem C1_counterexample :
    (Reachable (runReducer initialState
        [.updatePreset .focus 1, .startTimer, .tick, .startTimer]) ∧
      (runReducer initialState
        [.updatePreset .focus 1, .startTimer, .tick, .startTimer]).isRunning = true ∧
      (runReducer initialState
        [.updatePreset .focus 1, .startTimer, .tick, .startTimer]).isComplete = true) ∧
    (Reachable (runReducer initialState
        [.updatePreset .focus 1, .startTimer, .tick, .updatePreset .focus 10]) ∧
      (runReducer initialState
        [.updatePreset .focus 1, .startTimer, .tick, .updatePreset .focus 10]).isComplete = true ∧
      (runReducer initialState
        [.updatePreset .focus 1, .startTimer, .tick, .updatePreset .focus 10]).timeRemaining = 10) := by
  refine ⟨⟨?_, by decide, by decide⟩, ?_, by decide, by decide⟩ <;>
    exact reachable_runReducer _ initialState Reachable.init

/-! ### C2 -/

/-- C2 (amended): a TICK always decrements `timeRemaining` by exactly 1, so
over any sequence of ticks `timeRemaining` is non-increasing; from a running
state with `timeRemaining ≥ 1` a tick does not go below 0.  (The original
"never negative" clause fails: a running state with `timeRemaining = 0` is
reachable, from which a tick yields -1; see the counterexample.) -/
theorem C2_tick_amended :
    (∀ s : TimerState, (timerReducer s .tick).timeRemaining = s.timeRemaining - 1) ∧
    (∀ s : TimerState, s.isRunning = true → 1 ≤ s.timeRemaining →
      0 ≤ (timerReducer s .tick).timeRemaining) ∧
    (∀ (s : TimerState) (n : Nat),
      (runReducer s (List.replicate n .tick)).timeRemaining ≤ s.timeRemaining) := by
  refine ⟨fun s => by simp [timerReducer],
    fun s _ h => by simp only [timerReducer]; omega, ?_⟩
  intro s n
  induction n generalizing s with
  | zero => exact le_refl _
  | succ m ih =>
    calc (runReducer (timerReducer s .tick) (List.replicate m .tick)).timeRemaining
        ≤ (timerReducer s .tick).timeRemaining := ih (timerReducer s .tick)
      _ ≤ s.timeRemaining := by simp only [timerReducer]; omega

/-- Witness for C2 (amended) on concrete states: one tick from the freshly
started initial state lands at 1499 ≥ 0, and three ticks never increase the
remaining time. -/
theorem C2_tick_amended_witness :
    (timerReducer initialState .tick).timeRemaining = initialState.timeRemaining - 1 ∧
    0 ≤ (timerReducer (timerReducer initialState .startTimer) .tick).timeRemaining ∧
    (runReducer initialState (List.replicate 3 .tick)).timeRemaining ≤
      initialState.timeRemaining :=
  ⟨C2_tick_amended.1 initialState,
   C2_tick_amended.2.1 (timerReducer initialState .startTimer) (by decide) (by decide),
   C2_tick_amended.2.2 initialState 3⟩

/-- Counterexample to C2 as stated: the state reached by UPDATE_PRESET(focus,
1), START, TICK, START is running with `timeRemaining = 0`, and a tick from it
takes `timeRemaining` to -1, below 0. -/
theorem C2_counterexample :
    Reachable (runReducer initialState
      [.updatePreset .focus 1, .startTimer, .tick, .startTimer]) ∧
    (runReducer initialState
      [.updatePreset .focus 1, .startTimer, .tick, .startTimer]).isRunning = true ∧
    (timerReducer (runReducer initialState
      [.updatePreset .focus 1, .startTimer, .tick, .startTimer]) .tick).timeRemaining = -1 :=
  ⟨reachable_runReducer _ initialState Reachable.init, by decide, by decide⟩

/-! ### C3 -/

/-- The state after UPDATE_PRESET(focus, 1), START, TICK (first completion,
one session recorded), then UPDATE_PRESET(focus, 1) and START again: complete
with `timeRemaining = 1`. -/
def c3State : TimerState :=
  runSystem initialState
    [(.updatePreset .focus 1, 1704196800000), (.startTimer, 1704196800000),
     (.tick, 1704196800000), (.updatePreset .focus 1, 1704196800000),
     (.startTimer, 1704196800000)]

/-- Counterexample to C3 as stated: from `c3State` — a reachable state whose
active preset is countable, with `timeRemaining = 1` and `isComplete` still
true from the previous completion — a tick crosses zero but records no
session, because the completion effect fires only when `isComplete` changes
and it never became false in between. -/
theorem C3_counterexample :
    isCountable c3State.activePreset = true ∧
    c3State.isComplete = true ∧
    c3State.timeRemaining = 1 ∧
    c3State.stats.sessionsCompleted = 1 ∧
    (systemStep c3State .tick 1704196800000).timeRemaining = 0 ∧
    (systemStep c3State .tick 1704196800000).stats.sessionsCompleted = 1 := by
  decide

/-- C3 (amended): for a zero-crossing tick taken from a state that is not
already complete, exactly one COMPLETE_TIMER_SESSION stats update is recorded
iff the active preset is countable (id `focus` or `shortFocus`); a
non-countable preset reaching zero still sets `isComplete = true` with
`sessionsCompleted` unchanged; and a tick taken from an already-complete state
never records a session. -/
theorem C3_completion_amended :
    (∀ (s : TimerState) (t : Int), s.isComplete = false → s.timeRemaining = 1 →
      (systemStep s .tick t).isComplete = true ∧
      (systemStep s .tick t).stats.sessionsCompleted =
        (if isCountable s.activePreset then s.stats.sessionsCompleted + 1
         else s.stats.sessionsCompleted)) ∧
    (∀ (s : TimerState) (t : Int), s.isComplete = true →
      (systemStep s .tick t).stats.sessionsCompleted = s.stats.sessionsCompleted) := by
  constructor
  · intro s t h1 h2
    simp only [systemStep, timerReducer, h2, h1]
    norm_num
    cases hc : isCountable s.activePreset <;> simp [hc]
  · intro s t h1
    simp only [systemStep, timerReducer, h1]
    norm_num

/-- Witness for C3 (amended): a countable 1-second countdown that is not yet
complete records exactly one session on its zero-crossing tick, and a tick
from the complete `c3State` records none. -/
theorem C3_completion_amended_witness :
    ((systemStep (runReducer initialState [.updatePreset .focus 1, .startTimer])
        .tick 1704196800000).isComplete = true ∧
      (systemStep (runReducer initialState [.updatePreset .focus 1, .startTimer])
        .tick 1704196800000).stats.sessionsCompleted =
        (if isCountable (runReducer initialState
            [.updatePreset .focus 1, .startTimer]).activePreset then
          (runReducer initialState
            [.updatePreset .focus 1, .startTimer]).stats.sessionsCompleted + 1
         else (runReducer initialState
            [.updatePreset .focus 1, .startTimer]).stats.sessionsCompleted)) ∧
    (systemStep c3State .tick 1704196800000).stats.sessionsCompleted =
      c3State.stats.sessionsCompleted :=
  ⟨C3_completion_amended.1 (runReducer initialState [.updatePreset .focus 1, .startTimer])
      1704196800000 (by decide) (by decide),
   C3_completion_amended.2 c3State 1704196800000 (by decide)⟩

/-! ### C4 -/

/-- A plausible stats state: five-day streak last extended on 2024-01-01. -/
def c4State : TimerState :=
  { initialState with stats :=
    { initialState.stats with
        lastSessionDate := some "2024-01-01", currentStreak := 5, longestStreak := 5 } }

/-- The same stats but with `lastSessionDate` in the future (clock skew). -/
def c4StateSkew : TimerState :=
  { initialState with stats :=
    { initialState.stats with
        lastSessionDate := some "2024-01-05", currentStreak := 5, longestStreak := 5 } }

/-- C4 is a code bug: completing at 2024-01-02T12:00Z (timestamp
1704196800000) with `lastSessionDate = "2024-01-01"` — a whole-day difference
of exactly 1 — resets the streak to 1 instead of incrementing it to 6,
because `isContinuingStreak` compares UTC midnight of `lastSessionDate`
against `Date.now() - 24h`, which is already past midnight at any time of day
after 00:00:00.  And with `lastSessionDate = "2024-01-05"` (Δ < 0, clock
skew) the same completion increments the streak to 6 instead of leaving it
unchanged. -/
theorem C4_streak_code_bug :
    (timerReducer c4State (.completeTimerSession 1704196800000)).stats.currentStreak = 1 ∧
    (timerReducer c4StateSkew (.completeTimerSession 1704196800000)).stats.currentStreak = 6 := by
  decide

/-! ### C5 -/

/-- Counterexample to C5 as stated: a completion at 2024-01-02T12:00Z puts
the full date `2024-01-02` into the monthly and yearly series as well — the
reducer passes the same `today` string to `updateStatsEntry` for all three
series — whereas the claim requires the monthly key `2024-01` and the yearly
key `2024`. -/
theorem C5_counterexample :
    (timerReducer initialState
      (.completeTimerSession 1704196800000)).stats.monthlyStats.map StatEntry.date =
        ["2024-01-02"] ∧
    (timerReducer initialState
      (.completeTimerSession 1704196800000)).stats.yearlyStats.map StatEntry.date =
        ["2024-01-02"] ∧
    ("2024-01-02" : String) ≠ "2024-01" ∧
    ("2024-01-02" : String) ≠ "2024" := by
  decide

/-- C5 (amended): every series is keyed by the full `YYYY-MM-DD` date of the
completion; `updateStatsEntry` finds-or-creates the entry for that key,
appending a fresh `{sessions 1, focusTime duration}` entry when the key is
new and otherwise incrementing `sessions` by 1 and `focusTime` by the
duration, so two same-day completions of the default 1500-second focus preset
yield in each of the three series a single entry with `sessions = 2` and
`focusTime = 3000`. -/
theorem C5_bucket_amended :
    (∀ (d : String) (dur : Int),
      updateStatsEntry [] d dur = [{ date := d, sessions := 1, focusTime := dur }]) ∧
    (∀ (e : StatEntry) (rest : List StatEntry) (d : String) (dur : Int), e.date = d →
      updateStatsEntry (e :: rest) d dur =
        { e with sessions := e.sessions + 1, focusTime := e.focusTime + dur } :: rest) ∧
    ((runReducer initialState
        [.completeTimerSession 1704196800000,
         .completeTimerSession 1704200400000]).stats.weeklyStats =
      [{ date := "2024-01-02", sessions := 2, focusTime := 3000 }] ∧
     (runReducer initialState
        [.completeTimerSession 1704196800000,
         .completeTimerSession 1704200400000]).stats.monthlyStats =
      [{ date := "2024-01-02", sessions := 2, focusTime := 3000 }] ∧
     (runReducer initialState
        [.completeTimerSession 1704196800000,
         .completeTimerSession 1704200400000]).stats.yearlyStats =
      [{ date := "2024-01-02", sessions := 2, focusTime := 3000 }]) := by
  refine ⟨fun d dur => by simp [updateStatsEntry], updateStatsEntry_head, by decide⟩

/-- Witness for C5 (amended): the second same-day completion bumps the
existing bucket entry in place. -/
theorem C5_bucket_amended_witness :
    updateStatsEntry [{ date := "2024-01-02", sessions := 1, focusTime := 1500 }]
        "2024-01-02" 1500 =
      [{ date := "2024-01-02", sessions := 2, focusTime := 3000 }] :=
  C5_bucket_amended.2.1 { date := "2024-01-02", sessions := 1, focusTime := 1500 }
    [] "2024-01-02" 1500 rfl

/-! ### C6 -/

/-- Ten completions at noon UTC on the ten consecutive days starting
2024-01-02. -/
def tenDayActions : List TimerAction :=
  (List.range 10).map
    (fun k => .completeTimerSession (1704196800000 + 86400000 * (Int.ofNat k)))

/-- Counterexample to C6 as stated: recording completions across 10 distinct
days leaves the daily (`weeklyStats`) series with all 10 entries — no
retention cap exists and nothing is evicted, where the claim requires exactly
7 entries with the 3 oldest dates absent. -/
theorem C6_counterexample :
    (runReducer initialState tenDayActions).stats.weeklyStats.map StatEntry.date =
      ["2024-01-02", "2024-01-03", "2024-01-04", "2024-01-05", "2024-01-06",
       "2024-01-07", "2024-01-08", "2024-01-09", "2024-01-10", "2024-01-11"] ∧
    (runReducer initialState tenDayActions).stats.weeklyStats.length = 10 := by
  decide

/-- C6 (amended): no series enforces a retention cap: a completion whose date
key is absent from a series appends a fresh entry and evicts nothing, so
completions across 10 distinct days leave the daily series with exactly 10
entries, every date still present. -/
theorem C6_no_cap_amended :
    (∀ (entries : List StatEntry) (d : String) (dur : Int),
      (∀ e ∈ entries, e.date ≠ d) →
      updateStatsEntry entries d dur =
        entries ++ [{ date := d, sessions := 1, focusTime := dur }]) ∧
    (runReducer initialState tenDayActions).stats.weeklyStats.length = 10 :=
  ⟨updateStatsEntry_fresh, by decide⟩

/-- Witness for C6 (amended): a fresh date appends to a one-entry series,
keeping the older entry. -/
theorem C6_no_cap_amended_witness :
    updateStatsEntry [{ date := "2024-01-01", sessions := 3, focusTime := 4500 }]
        "2024-01-02" 1500 =
      [{ date := "2024-01-01", sessions := 3, focusTime := 4500 },
       { date := "2024-01-02", sessions := 1, focusTime := 1500 }] :=
  C6_no_cap_amended.1 [{ date := "2024-01-01", sessions := 3, focusTime := 4500 }]
    "2024-01-02" 1500 (by decide)

/-! ### C7 -/

/-- Counterexample to C7 as stated: UPDATE_PRESET with the non-positive
duration 0 does not leave the state unchanged — it sets the focus preset, the
active preset's duration and `timeRemaining` all to 0. -/
theorem C7_counterexample :
    (timerReducer initialState (.updatePreset .focus 0)).presets.focus = 0 ∧
    initialState.presets.focus = 1500 ∧
    (timerReducer initialState (.updatePreset .focus 0)).timeRemaining = 0 ∧
    timerReducer initialState (.updatePreset .focus 0) ≠ initialState := by
  decide

/-- C7 (amended): every operation is a total function on the state (the
reducer is defined for every state and action), but out-of-range durations
are not rejected: UPDATE_PRESET stores any value, non-positive included, and
when the target is the active preset it also overwrites the active preset's
duration and `timeRemaining` with that value. -/
theorem C7_update_preset_amended :
    (∀ (s : TimerState) (name : PresetKey) (v : Int),
      getPreset (timerReducer s (.updatePreset name v)).presets name = v) ∧
    (∀ (s : TimerState) (name : PresetKey) (v : Int),
      s.activePreset.id = presetKeyStr name →
      (timerReducer s (.updatePreset name v)).timeRemaining = v ∧
      (timerReducer s (.updatePreset name v)).activePreset.duration = v) := by
  constructor
  · intro s name v
    simp only [timerReducer]
    split <;> cases name <;> simp [setPreset, getPreset]
  · intro s name v h
    simp [timerReducer, h]

/-- Witness for C7 (amended): updating the active focus preset to the
non-positive duration -5 stores -5 everywhere. -/
theorem C7_update_preset_amended_witness :
    getPreset (timerReducer initialState
        (.updatePreset .focus (-5))).presets .focus = -5 ∧
    (timerReducer initialState (.updatePreset .focus (-5))).timeRemaining = -5 ∧
    (timerReducer initialState (.updatePreset .focus (-5))).activePreset.duration = -5 :=
  ⟨C7_update_preset_amended.1 initialState .focus (-5),
   (C7_update_preset_amended.2 initialState .focus (-5) rfl).1,
   (C7_update_preset_amended.2 initialState .focus (-5) rfl).2⟩

/-! ### C8 -/

/-- An older-schema snapshot: a `stats` object carrying only
`sessionsCompleted`. -/
def c8Snapshot : PartialSnapshot :=
  { stats := some { sessionsCompleted := some 5 } }

/-- Counterexample to C8 as stated: loading a snapshot whose `stats` object
lacks the `yearlyStats` series leaves that nested field `undefined` — the
initializer spreads only the top level (plus `preferences`), taking a present
`stats` object wholesale — whereas the claim requires every absent nested
field, including individual stats series, to be populated from defaults
(`some []`). -/
theorem C8_counterexample :
    (loadFromStorage (.parsed c8Snapshot)).stats.yearlyStats = none ∧
    (toPartialStats initialState.stats).yearlyStats = some [] := by
  decide

/-- C8 (amended): `load()` returns the defaults when the persisted snapshot
is missing or corrupt; top-level fields absent from a parsed snapshot are
populated from defaults, and `preferences` is additionally merged
field-by-field; but a present `stats` object is taken wholesale, so its own
absent nested fields (e.g. individual stats series) stay undefined instead of
being populated from defaults. -/
theorem C8_load_amended :
    loadFromStorage .missing = defaultLoaded ∧
    loadFromStorage .corrupt = defaultLoaded ∧
    (∀ p : PartialSnapshot, p.isRunning = none →
      (loadFromStorage (.parsed p)).isRunning = initialState.isRunning) ∧
    (∀ p : PartialSnapshot, p.stats = none →
      (loadFromStorage (.parsed p)).stats = toPartialStats initialState.stats) ∧
    (∀ (p : PartialSnapshot) (pp : PartialPreferences), p.preferences = some pp →
      pp.soundEnabled = none →
      (loadFromStorage (.parsed p)).preferences.soundEnabled =
        initialState.preferences.soundEnabled) ∧
    (∀ (p : PartialSnapshot) (ps : PartialStats), p.stats = some ps →
      (loadFromStorage (.parsed p)).stats = ps) := by
  refine ⟨rfl, rfl, ?_, ?_, ?_, ?_⟩
  · intro p h
    simp [loadFromStorage, h]
  · intro p h
    simp [loadFromStorage, h]
  · intro p pp h1 h2
    simp [loadFromStorage, h1, mergePreferences, h2]
  · intro p ps h
    simp [loadFromStorage, h]

/-- Witness for C8 (amended) on a concrete partial snapshot. -/
theorem C8_load_amended_witness :
    (loadFromStorage (.parsed c8Snapshot)).isRunning = initialState.isRunning ∧
    (loadFromStorage (.parsed { preferences := some { theme := some "allspark" } })).stats =
      toPartialStats initialState.stats ∧
    (loadFromStorage (.parsed { preferences := some { theme := some "allspark" } })).preferences.soundEnabled =
      initialState.preferences.soundEnabled ∧
    (loadFromStorage (.parsed c8Snapshot)).stats = { sessionsCompleted := some 5 } :=
  ⟨C8_load_amended.2.2.1 c8Snapshot rfl,
   C8_load_amended.2.2.2.1 { preferences := some { theme := some "allspark" } } rfl,
   C8_load_amended.2.2.2.2.1 { preferences := some { theme := some "allspark" } }
     { theme := some "allspark" } rfl rfl,
   C8_load_amended.2.2.2.2.2 c8Snapshot { sessionsCompleted := some 5 } rfl⟩

/-! ### C9 -/

/-- Counterexample to C9 as stated: COMPLETE_TIMER_SESSION is not independent
of the wall clock — the reducer takes no event timestamp at all and reads
`new Date()` / `Date.now()` itself, so running it on the identical state at
2024-01-02T12:00Z and at 2024-03-05T12:00Z produces different stats. -/
theorem C9_counterexample :
    (timerReducer initialState (.completeTimerSession 1704196800000)).stats ≠
    (timerReducer initialState (.completeTimerSession 1709640000000)).stats := by
  decide

/-- C9 (amended): the stats update of COMPLETE_TIMER_SESSION is a
deterministic function of the prior stats, the active preset's duration, and
the single wall-clock reading at processing time: two states agreeing on
those produce identical stats for the same clock value. -/
theorem C9_determinism_amended (s1 s2 : TimerState) (t : Int)
    (hstats : s1.stats = s2.stats)
    (hdur : s1.activePreset.duration = s2.activePreset.duration) :
    (timerReducer s1 (.completeTimerSession t)).stats =
      (timerReducer s2 (.completeTimerSession t)).stats := by
  simp only [timerReducer]
  rw [hstats, hdur]

/-- Witness for C9 (amended): two distinct states with equal stats and equal
active-preset duration yield identical stats. -/
theorem C9_determinism_amended_witness :
    (timerReducer initialState (.completeTimerSession 1704196800000)).stats =
      (timerReducer { initialState with isRunning := true }
        (.completeTimerSession 1704196800000)).stats :=
  C9_determinism_amended initialState { initialState with isRunning := true }
    1704196800000 rfl rfl

/-! ### C10 -/

/-- C10 (confirmed): from the initial state, after any sequence of reducer
actions the three series `weeklyStats`, `monthlyStats` and `yearlyStats` are
pairwise equal — every completion updates all three with the identical
full-date key and identical increments, and RESET_STATS clears all three. -/
theorem C10_series_pairwise_equal (s : TimerState) (h : Reachable s) :
    s.stats.weeklyStats = s.stats.monthlyStats ∧
      s.stats.monthlyStats = s.stats.yearlyStats := by
  induction h with
  | init => exact ⟨rfl, rfl⟩
  | step a hs ih =>
    cases a with
    | startTimer => simpa [timerReducer] using ih
    | pauseTimer => simpa [timerReducer] using ih
    | resetTimer => simpa [timerReducer] using ih
    | tick => simpa [timerReducer] using ih
    | switchPreset p => simpa [timerReducer] using ih
    | updatePreset name v =>
      simp only [timerReducer]
      split <;> simpa using ih
    | updatePreference u => simpa [timerReducer] using ih
    | resetStats => exact ⟨rfl, rfl⟩
    | completeTimerSession t =>
      simp only [timerReducer]
      exact ⟨by rw [ih.1], by rw [ih.2]⟩
    | unlockQuote q => simpa [timerReducer] using ih
    | unlockAchievement aid t => simpa [timerReducer] using ih

/-- Witness for C10 at the initial state (all three series empty). -/
theorem C10_series_pairwise_equal_witness :
    initialState.stats.weeklyStats = initialState.stats.monthlyStats ∧
      initialState.stats.monthlyStats = initialState.stats.yearlyStats :=
  C10_series_pairwise_equal initialState Reachable.init


end CyberTimer
